import Mathlib

/-!
Verification of `verify_respawn.py`, a script that fetches a bot's event
log (`GET /events`) and live state (`GET /state`) from a local HTTP
service and prints a human-readable summary.

The script is embedded shallowly: JSON values are an inductive type,
each Python `print` appends one string to an output list, Python
exceptions are modelled with `Except String` (the message is what
`str(e)` interpolates), and the whole run is a pure function from the
two HTTP responses to the list of requests issued, the printed output,
and the exit status.
-/

/-- A JSON value as produced by `response.json()`.  Numbers are modelled
as integers (every number occurring in the specification's scenarios is
an integer); objects are association lists in insertion order with
unique keys, matching a Python `dict` parsed from a JSON object. -/
inductive Json where
  | null
  | bool (b : Bool)
  | num (n : Int)
  | str (s : String)
  | arr (elts : List Json)
  | obj (fields : List (String × Json))

/-- Single-quote character, written via its code point. -/
def squote : String := "\x27"

/-- Lookup of a key in a parsed JSON object (Python `dict` access on the
association list; keys are unique, so first match). -/
def lookupKey : List (String × Json) → String → Option Json
  | [], _ => none
  | (k, v) :: rest, key => if k = key then some v else lookupKey rest key

/-- Python `value[key]`: returns the value, or raises.  A missing key
raises `KeyError(key)`, whose `str()` is the repr of the key; indexing a
non-dict with a string key raises a `TypeError`. -/
def subscript (j : Json) (key : String) : Except String Json :=
  match j with
  | Json.obj kvs =>
    match lookupKey kvs key with
    | some v => Except.ok v
    | none => Except.error (squote ++ key ++ squote)
  | _ => Except.error "string indices must be integers"

mutual

/-- Python `repr()` of a parsed JSON value (how a value prints when
nested inside a container's `str()`).  String escaping inside `repr` is
not modelled beyond plain characters, which suffices for the strings the
specification exercises. -/
def pyRepr : Json → String
  | Json.null => "None"
  | Json.bool true => "True"
  | Json.bool false => "False"
  | Json.num n => toString n
  | Json.str s => squote ++ s ++ squote
  | Json.arr xs => "[" ++ pyReprList xs ++ "]"
  | Json.obj kvs => "\x7b" ++ pyReprKvs kvs ++ "\x7d"

/-- Comma-separated `repr`s of list elements. -/
def pyReprList : List Json → String
  | [] => ""
  | [x] => pyRepr x
  | x :: rest => pyRepr x ++ ", " ++ pyReprList rest

/-- Comma-separated `'key': repr(value)` pairs of a dict. -/
def pyReprKvs : List (String × Json) → String
  | [] => ""
  | [(k, v)] => squote ++ k ++ squote ++ ": " ++ pyRepr v
  | (k, v) :: rest =>
    squote ++ k ++ squote ++ ": " ++ pyRepr v ++ ", " ++ pyReprKvs rest

end

/-- Python `str()` of a parsed JSON value, as used by f-string
interpolation: a string interpolates as itself, everything else as its
`repr`. -/
def pyStr : Json → String
  | Json.str s => s
  | Json.null => pyRepr Json.null
  | Json.bool b => pyRepr (Json.bool b)
  | Json.num n => pyRepr (Json.num n)
  | Json.arr xs => pyRepr (Json.arr xs)
  | Json.obj kvs => pyRepr (Json.obj kvs)

/-- JSON string quoting as done by `json.dumps`: double quotes, with the
backslash escapes for quote, backslash and the common control
characters.  (`\uXXXX` escaping of other control and non-ASCII
characters is not modelled; the specification's strings need none.) -/
def jsonQuoteChar (c : Char) : String :=
  if c = '"' then "\\\""
  else if c = '\\' then "\\\\"
  else if c = '\n' then "\\n"
  else if c = '\t' then "\\t"
  else if c = '\x0d' then "\\r"
  else String.mk [c]

/-- Quote a string as a JSON string literal. -/
def jsonQuote (s : String) : String :=
  "\"" ++ String.join (s.data.map jsonQuoteChar) ++ "\""

/-- The indentation prefix at nesting depth `level` for
`json.dumps(..., indent=2)`: `2 * level` spaces. -/
def ind (level : Nat) : String := String.mk (List.replicate (2 * level) ' ')

mutual

/-- `json.dumps(value, indent=2)` rendered at nesting depth `level`:
containers open a line, indent each item by two more spaces, separate
items with `,` plus newline, and close at the parent's indentation;
empty containers stay on one line. -/
def dumps (level : Nat) : Json → String
  | Json.null => "null"
  | Json.bool true => "true"
  | Json.bool false => "false"
  | Json.num n => toString n
  | Json.str s => jsonQuote s
  | Json.arr [] => "[]"
  | Json.arr (x :: xs) =>
    "[\n" ++ dumpsList (level + 1) (x :: xs) ++ "\n" ++ ind level ++ "]"
  | Json.obj [] => "\x7b\x7d"
  | Json.obj (kv :: kvs) =>
    "\x7b\n" ++ dumpsKvs (level + 1) (kv :: kvs) ++ "\n" ++ ind level ++ "\x7d"

/-- Array items of `json.dumps`, one per line at depth `level`. -/
def dumpsList (level : Nat) : List Json → String
  | [] => ""
  | [x] => ind level ++ dumps level x
  | x :: rest => ind level ++ dumps level x ++ ",\n" ++ dumpsList level rest

/-- Object entries of `json.dumps`, one `"key": value` per line. -/
def dumpsKvs (level : Nat) : List (String × Json) → String
  | [] => ""
  | [(k, v)] => ind level ++ jsonQuote k ++ ": " ++ dumps level v
  | (k, v) :: rest =>
    ind level ++ jsonQuote k ++ ": " ++ dumps level v ++ ",\n" ++ dumpsKvs level rest

end

/-- The allow-list of event types from line 16 of the script. -/
def allowList : List String :=
  ["death", "respawn_attempt", "spawn", "reconnect", "chat", "health"]

/-- Python `v in [s1, s2, ...]` where every list element is a `str`:
true exactly when `v` is an equal string (a non-string JSON value never
equals a Python `str`). -/
def jsonInStrList (v : Json) (l : List String) : Bool :=
  match v with
  | Json.str s => l.contains s
  | _ => false

/-- The body of the event loop (lines 16-20): read `event['type']`,
test it against the allow-list; on a hit read `timestamp`, `type` and
`data` and produce the printed line, otherwise produce nothing.  Any
subscript failure is an uncaught exception. -/
def processEvent (event : Json) : Except String (Option String) :=
  match subscript event "type" with
  | Except.error msg => Except.error msg
  | Except.ok ty =>
    if jsonInStrList ty allowList then
      match subscript event "timestamp" with
      | Except.error msg => Except.error msg
      | Except.ok _timestamp =>
        match subscript event "type" with
        | Except.error msg => Except.error msg
        | Except.ok eventType =>
          match subscript event "data" with
          | Except.error msg => Except.error msg
          | Except.ok data =>
            Except.ok (some (pyStr eventType ++ ": " ++ dumps 0 data))
    else
      Except.ok none

/-- Run the event loop over a list of events: the lines printed before
any abort, and the exception message if one was raised. -/
def runLoop : List Json → List String × Option String
  | [] => ([], none)
  | e :: rest =>
    match processEvent e with
    | Except.error msg => ([], some msg)
    | Except.ok none => runLoop rest
    | Except.ok (some line) =>
      let (lines, err) := runLoop rest
      (line :: lines, err)

/-- Python `events[-20:]`: the whole list when it has at most 20
elements, otherwise the last 20 in order. -/
def lastSlice (xs : List Json) : List Json := xs.drop (xs.length - 20)

/-- The event-section lines for a given events list: slice to the last
20, then run the per-item loop. -/
def eventLines (evs : List Json) : List String × Option String :=
  runLoop (lastSlice evs)

/-- The separator line `"-" * 50`. -/
def sep : String := String.mk (List.replicate 50 '-')

/-- The body of the `try` block of the state section (lines 26-32),
given the outcome of `GET /state` followed by `.json()`: either the
five lines of the success path, or the lines printed before the
exception together with its message. -/
def stateTry (resp : Except String Json) :
    Except (List String × String) (List String) :=
  match resp with
  | Except.error msg => Except.error ([], msg)
  | Except.ok st =>
    match subscript st "health" with
    | Except.error m => Except.error ([], m)
    | Except.ok h =>
      let l1 := "Health: " ++ pyStr h ++ "/20"
      match subscript st "food" with
      | Except.error m => Except.error ([l1], m)
      | Except.ok f =>
        let l2 := "Food: " ++ pyStr f ++ "/20"
        match subscript st "position" with
        | Except.error m => Except.error ([l1, l2], m)
        | Except.ok p =>
          let l3 := "Position: " ++ pyStr p
          match subscript st "gameMode" with
          | Except.error m => Except.error ([l1, l2, l3], m)
          | Except.ok g =>
            Except.ok [l1, l2, l3, "Game Mode: " ++ pyStr g,
              "\nBot is alive and connected! ✓"]

/-- The state section with its `except` handler (lines 25-35): on any
failure the lines already printed are followed by the error template
and the disconnect note. -/
def stateSection (resp : Except String Json) : List String :=
  match stateTry resp with
  | Except.ok lines => lines
  | Except.error (printed, msg) =>
    printed ++ ["Error getting state: " ++ msg, "Bot may be disconnected"]

/-- The two HTTP responses a run observes: each is either the parsed
JSON body, or an exception message covering both the network failure of
`requests.get` and a `.json()` parse failure. -/
structure World where
  eventsResp : Except String Json
  stateResp : Except String Json

/-- How a run ends: normally, or aborted by an uncaught exception. -/
inductive ExitStatus where
  | normal
  | aborted (msg : String)
deriving DecidableEq, Repr

/-- The observable result of one run: the request paths issued in
order, the strings printed in order, and the exit status. -/
structure RunResult where
  requests : List String
  output : List String
  exit : ExitStatus
deriving DecidableEq, Repr

/-- The whole script, top to bottom: fetch `/events`, read the
`events` field, print the header, loop over the last-20 slice, then
fetch `/state` inside the try block and print the state section.  Any
uncaught exception aborts the run with whatever was already printed. -/
def runScript (w : World) : RunResult :=
  match w.eventsResp with
  | Except.error msg => ⟨["/events"], [], ExitStatus.aborted msg⟩
  | Except.ok js =>
    match subscript js "events" with
    | Except.error msg => ⟨["/events"], [], ExitStatus.aborted msg⟩
    | Except.ok ev =>
      let header := ["Recent bot events:", sep]
      match ev with
      | Json.arr xs =>
        match eventLines xs with
        | (lines, some msg) =>
          ⟨["/events"], header ++ lines, ExitStatus.aborted msg⟩
        | (lines, none) =>
          ⟨["/events", "/state"],
            header ++ lines ++ ["\n" ++ sep, "Current bot state:"]
              ++ stateSection w.stateResp,
            ExitStatus.normal⟩
      | _ =>
        ⟨["/events"], header,
          ExitStatus.aborted "unhashable type: \x27slice\x27"⟩

/-- C1: the event reporter slices first and only then filters per item:
the event-section output of any events list is the per-item loop over
its trailing slice; a list of at most 20 events is processed whole; and
prepending any events (allow-listed or not) before a 20-element tail
leaves the output unchanged, so an allow-listed event outside the last
20 is never printed and a non-allow-listed event inside the last 20
displaces nothing. -/
theorem c1_slice_then_filter :
    (∀ evs : List Json, eventLines evs = runLoop (evs.drop (evs.length - 20))) ∧
    (∀ evs : List Json, evs.length ≤ 20 → eventLines evs = runLoop evs) ∧
    (∀ pre suf : List Json, suf.length = 20 →
      eventLines (pre ++ suf) = runLoop suf) := by
  refine ⟨fun evs => rfl, fun evs h => ?_, fun pre suf h => ?_⟩
  · unfold eventLines lastSlice
    rw [Nat.sub_eq_zero_of_le h, List.drop_zero]
  · unfold eventLines lastSlice
    have hlen : (pre ++ suf).length - 20 = pre.length := by
      rw [List.length_append, h]
      omega
    rw [hlen, List.drop_left]

/-- Witness for C1 at concrete inputs: a singleton list is processed
whole, and a 3-element prefix before a 20-element tail is dropped. -/
theorem c1_slice_then_filter_witness :
    eventLines [Json.null] = runLoop [Json.null] ∧
    eventLines (List.replicate 3 Json.null ++ List.replicate 20 Json.null) =
      runLoop (List.replicate 20 Json.null) :=
  ⟨c1_slice_then_filter.2.1 [Json.null] (by decide),
   c1_slice_then_filter.2.2 (List.replicate 3 Json.null)
     (List.replicate 20 Json.null) (by decide)⟩

/-- C2: for an event object carrying `type` (a string), `timestamp` and
`data` keys, the loop body produces a printed line precisely when the
type is on the allow-list, and that line is the type followed by ": "
and the indent-2 JSON serialization of the data; any other type
produces no line. -/
theorem c2_allowlist_filter (kvs : List (String × Json)) (t : String) (d : Json)
    (ht : lookupKey kvs "type" = some (Json.str t))
    (hts : (lookupKey kvs "timestamp").isSome)
    (hd : lookupKey kvs "data" = some d) :
    processEvent (Json.obj kvs) =
      Except.ok (if allowList.contains t then some (t ++ ": " ++ dumps 0 d)
        else none) := by
  obtain ⟨v, hv⟩ := Option.isSome_iff_exists.mp hts
  by_cases hc : t ∈ allowList
  · simp [processEvent, subscript, ht, hv, hd, hc, jsonInStrList, pyStr]
  · simp [processEvent, subscript, ht, hc, jsonInStrList]

/-- Witness for C2: a concrete `chat` event produces its line. -/
theorem c2_allowlist_filter_witness :
    processEvent (Json.obj [("type", Json.str "chat"), ("timestamp", Json.num 1),
        ("data", Json.obj [])]) =
      Except.ok (if allowList.contains "chat"
        then some ("chat" ++ ": " ++ dumps 0 (Json.obj [])) else none) :=
  c2_allowlist_filter _ "chat" (Json.obj []) rfl (by decide) rfl

/-- C3: a state response that is an object with the keys `health`,
`food`, `position` and `gameMode` takes the success path of the try
block: the four values appear verbatim in the printed lines together
with the success sentinel, and the handler contributes nothing. -/
theorem c3_state_success (kvs : List (String × Json)) (h f p g : Json)
    (hh : lookupKey kvs "health" = some h)
    (hf : lookupKey kvs "food" = some f)
    (hp : lookupKey kvs "position" = some p)
    (hg : lookupKey kvs "gameMode" = some g) :
    stateTry (Except.ok (Json.obj kvs)) = Except.ok
        ["Health: " ++ pyStr h ++ "/20", "Food: " ++ pyStr f ++ "/20",
         "Position: " ++ pyStr p, "Game Mode: " ++ pyStr g,
         "\nBot is alive and connected! ✓"] ∧
    stateSection (Except.ok (Json.obj kvs)) =
        ["Health: " ++ pyStr h ++ "/20", "Food: " ++ pyStr f ++ "/20",
         "Position: " ++ pyStr p, "Game Mode: " ++ pyStr g,
         "\nBot is alive and connected! ✓"] := by
  have h1 : stateTry (Except.ok (Json.obj kvs)) = Except.ok
      ["Health: " ++ pyStr h ++ "/20", "Food: " ++ pyStr f ++ "/20",
       "Position: " ++ pyStr p, "Game Mode: " ++ pyStr g,
       "\nBot is alive and connected! ✓"] := by
    simp [stateTry, subscript, hh, hf, hp, hg]
  exact ⟨h1, by simp [stateSection, h1]⟩

/-- Witness for C3: a concrete well-formed state object. -/
theorem c3_state_success_witness :
    stateTry (Except.ok (Json.obj [("health", Json.num 20), ("food", Json.num 18),
        ("position", Json.null), ("gameMode", Json.str "survival")])) = Except.ok
        ["Health: " ++ pyStr (Json.num 20) ++ "/20",
         "Food: " ++ pyStr (Json.num 18) ++ "/20",
         "Position: " ++ pyStr Json.null,
         "Game Mode: " ++ pyStr (Json.str "survival"),
         "\nBot is alive and connected! ✓"] ∧
    stateSection (Except.ok (Json.obj [("health", Json.num 20), ("food", Json.num 18),
        ("position", Json.null), ("gameMode", Json.str "survival")])) =
        ["Health: " ++ pyStr (Json.num 20) ++ "/20",
         "Food: " ++ pyStr (Json.num 18) ++ "/20",
         "Position: " ++ pyStr Json.null,
         "Game Mode: " ++ pyStr (Json.str "survival"),
         "\nBot is alive and connected! ✓"] :=
  c3_state_success _ (Json.num 20) (Json.num 18) Json.null (Json.str "survival")
    rfl rfl rfl rfl

/-- C6: the concrete scenario of the specification: one `chat` event and
one `unknown` event, a well-formed state; the run issues both requests,
prints exactly one event line (the pretty-printed chat data), nothing
for `unknown`, then the four state lines and the success sentinel, and
exits normally. -/
theorem c6_concrete_scenario :
    runScript ⟨Except.ok (Json.obj [("events", Json.arr
        [Json.obj [("type", Json.str "chat"), ("timestamp", Json.num 1),
           ("data", Json.obj [("msg", Json.str "hi")])],
         Json.obj [("type", Json.str "unknown"), ("timestamp", Json.num 2),
           ("data", Json.obj [])]])]),
      Except.ok (Json.obj [("health", Json.num 20), ("food", Json.num 18),
        ("position", Json.obj [("x", Json.num 0), ("y", Json.num 64),
           ("z", Json.num 0)]),
        ("gameMode", Json.str "survival")])⟩ =
      ⟨["/events", "/state"],
       ["Recent bot events:", sep, "chat: \x7b\n  \"msg\": \"hi\"\n\x7d",
        "\n" ++ sep, "Current bot state:", "Health: 20/20", "Food: 18/20",
        "Position: \x7b\x27x\x27: 0, \x27y\x27: 64, \x27z\x27: 0\x7d",
        "Game Mode: survival", "\nBot is alive and connected! ✓"],
       ExitStatus.normal⟩ := by
  rfl

/-- On any failing state response (network or parse failure, or an
object missing one of the four printed keys), the state section ends
with the error template followed by the disconnect note. -/
theorem stateSection_failure (resp : Except String Json)
    (hfail : (∃ m, resp = Except.error m) ∨
      (∃ kvs, resp = Except.ok (Json.obj kvs) ∧
        (lookupKey kvs "health" = none ∨ lookupKey kvs "food" = none ∨
         lookupKey kvs "position" = none ∨ lookupKey kvs "gameMode" = none))) :
    ∃ pre m, stateSection resp =
      pre ++ ["Error getting state: " ++ m, "Bot may be disconnected"] := by
  rcases hfail with ⟨m, rfl⟩ | ⟨kvs, rfl, hmiss⟩
  · exact ⟨[], m, by simp [stateSection, stateTry]⟩
  · cases hH : lookupKey kvs "health" with
    | none =>
      exact ⟨[], squote ++ "health" ++ squote,
        by simp [stateSection, stateTry, subscript, hH]⟩
    | some h =>
      cases hF : lookupKey kvs "food" with
      | none =>
        exact ⟨["Health: " ++ pyStr h ++ "/20"], squote ++ "food" ++ squote,
          by simp [stateSection, stateTry, subscript, hH, hF]⟩
      | some f =>
        cases hP : lookupKey kvs "position" with
        | none =>
          exact ⟨["Health: " ++ pyStr h ++ "/20", "Food: " ++ pyStr f ++ "/20"],
            squote ++ "position" ++ squote,
            by simp [stateSection, stateTry, subscript, hH, hF, hP]⟩
        | some p =>
          cases hG : lookupKey kvs "gameMode" with
          | none =>
            exact ⟨["Health: " ++ pyStr h ++ "/20", "Food: " ++ pyStr f ++ "/20",
              "Position: " ++ pyStr p], squote ++ "gameMode" ++ squote,
              by simp [stateSection, stateTry, subscript, hH, hF, hP, hG]⟩
          | some g => rcases hmiss with h' | h' | h' | h' <;> simp_all

/-- C4: when the events section completes and the state fetch or its
processing fails (network error, non-JSON body, or a state object
missing one of the four fields), the failure is caught: the output ends
with "Error getting state: " plus the message and the disconnect note,
and the run exits normally. -/
theorem c4_state_failure_caught (w : World) (js : Json) (xs : List Json)
    (hev : w.eventsResp = Except.ok js)
    (hsub : subscript js "events" = Except.ok (Json.arr xs))
    (hloop : (eventLines xs).2 = none)
    (hfail : (∃ m, w.stateResp = Except.error m) ∨
      (∃ kvs, w.stateResp = Except.ok (Json.obj kvs) ∧
        (lookupKey kvs "health" = none ∨ lookupKey kvs "food" = none ∨
         lookupKey kvs "position" = none ∨ lookupKey kvs "gameMode" = none))) :
    (∃ pre m, (runScript w).output =
      pre ++ ["Error getting state: " ++ m, "Bot may be disconnected"]) ∧
    (runScript w).exit = ExitStatus.normal := by
  obtain ⟨pre, m, hS⟩ := stateSection_failure w.stateResp hfail
  rcases hE : eventLines xs with ⟨lines, err⟩
  have herr : err = none := by rw [hE] at hloop; exact hloop
  subst herr
  constructor
  · refine ⟨["Recent bot events:", sep] ++ lines
      ++ ["\n" ++ sep, "Current bot state:"] ++ pre, m, ?_⟩
    simp [runScript, hev, hsub, hE, hS]
  · simp [runScript, hev, hsub, hE]

/-- Witness for C4: an empty events list and a refused state fetch. -/
theorem c4_state_failure_caught_witness :
    (∃ pre m,
      (runScript ⟨Except.ok (Json.obj [("events", Json.arr [])]),
        Except.error "Connection refused"⟩).output =
        pre ++ ["Error getting state: " ++ m, "Bot may be disconnected"]) ∧
    (runScript ⟨Except.ok (Json.obj [("events", Json.arr [])]),
      Except.error "Connection refused"⟩).exit = ExitStatus.normal :=
  c4_state_failure_caught _ (Json.obj [("events", Json.arr [])]) [] rfl rfl rfl
    (Or.inl ⟨"Connection refused", rfl⟩)

/-- C5: a failure of the events fetch or of reading the `events` field
of its body has no handler: the run aborts with that message and the
state request is never issued. -/
theorem c5_events_failure_aborts (w : World) (m : String)
    (h : w.eventsResp = Except.error m ∨
      ∃ js, w.eventsResp = Except.ok js ∧
        subscript js "events" = Except.error m) :
    (runScript w).requests = ["/events"] ∧
    (runScript w).exit = ExitStatus.aborted m := by
  rcases h with hev | ⟨js, hev, hsub⟩
  · simp [runScript, hev]
  · simp [runScript, hev, hsub]

/-- Witness for C5: a refused events fetch issues only the first
request and aborts. -/
theorem c5_events_failure_aborts_witness :
    (runScript ⟨Except.error "Connection refused",
      Except.ok Json.null⟩).requests = ["/events"] ∧
    (runScript ⟨Except.error "Connection refused",
      Except.ok Json.null⟩).exit = ExitStatus.aborted "Connection refused" :=
  c5_events_failure_aborts _ _ (Or.inl rfl)

/-- Counterexample to C7 as stated: a run whose events fetch fails
issues only one GET request, not exactly two. -/
theorem c7_counterexample :
    (runScript ⟨Except.error "Connection refused", Except.ok Json.null⟩).requests ≠
      ["/events", "/state"] := by
  decide

/-- C7 (amended): every run issues at most two GET requests in the
fixed order `/events` then `/state`, with no retry; `/state` is issued
exactly when the events fetch, parse and printing loop all complete,
and in that case the run exits normally and all event-section output
precedes all state-section output; a run aborted in the events section
issues only `/events`. -/
theorem c7_amended_sequential (w : World) :
    (∃ m, (runScript w).requests = ["/events"] ∧
      (runScript w).exit = ExitStatus.aborted m) ∨
    ((runScript w).requests = ["/events", "/state"] ∧
      (runScript w).exit = ExitStatus.normal ∧
      ∃ evOut, (runScript w).output = evOut ++ stateSection w.stateResp) := by
  rcases hev : w.eventsResp with m | js
  · exact Or.inl ⟨m, by simp [runScript, hev], by simp [runScript, hev]⟩
  · rcases hsub : subscript js "events" with m | ev
    · exact Or.inl ⟨m, by simp [runScript, hev, hsub],
        by simp [runScript, hev, hsub]⟩
    · cases ev with
      | arr xs =>
        rcases hE : eventLines xs with ⟨lines, err⟩
        cases err with
        | some m =>
          exact Or.inl ⟨m, by simp [runScript, hev, hsub, hE],
            by simp [runScript, hev, hsub, hE]⟩
        | none =>
          refine Or.inr ⟨by simp [runScript, hev, hsub, hE],
            by simp [runScript, hev, hsub, hE],
            ⟨["Recent bot events:", sep] ++ lines
              ++ ["\n" ++ sep, "Current bot state:"], ?_⟩⟩
          simp [runScript, hev, hsub, hE]
      | null =>
        exact Or.inl ⟨"unhashable type: \x27slice\x27",
          by simp [runScript, hev, hsub], by simp [runScript, hev, hsub]⟩
      | bool b =>
        exact Or.inl ⟨"unhashable type: \x27slice\x27",
          by simp [runScript, hev, hsub], by simp [runScript, hev, hsub]⟩
      | num n =>
        exact Or.inl ⟨"unhashable type: \x27slice\x27",
          by simp [runScript, hev, hsub], by simp [runScript, hev, hsub]⟩
      | str s =>
        exact Or.inl ⟨"unhashable type: \x27slice\x27",
          by simp [runScript, hev, hsub], by simp [runScript, hev, hsub]⟩
      | obj kvs =>
        exact Or.inl ⟨"unhashable type: \x27slice\x27",
          by simp [runScript, hev, hsub], by simp [runScript, hev, hsub]⟩

/-- C10: when the events fetch fails or its body lacks the `events`
field, the run prints nothing at all: the header is only reached after
the fetch and the field access succeed. -/
theorem c10_no_output_on_events_failure (w : World)
    (h : (∃ m, w.eventsResp = Except.error m) ∨
      ∃ js m, w.eventsResp = Except.ok js ∧
        subscript js "events" = Except.error m) :
    (runScript w).output = [] := by
  rcases h with ⟨m, hev⟩ | ⟨js, m, hev, hsub⟩
  · simp [runScript, hev]
  · simp [runScript, hev, hsub]

/-- Witness for C10: a body without an `events` key prints nothing. -/
theorem c10_no_output_on_events_failure_witness :
    (runScript ⟨Except.ok (Json.obj []), Except.ok Json.null⟩).output = [] :=
  c10_no_output_on_events_failure _
    (Or.inr ⟨Json.obj [], squote ++ "events" ++ squote, rfl, rfl⟩)

/-- An event object the loop cannot process: it lacks a `type` key, or
its type is allow-listed but it lacks a `timestamp` or a `data` key. -/
def badEvent (e : Json) : Prop :=
  ∃ kvs, e = Json.obj kvs ∧
    (lookupKey kvs "type" = none ∨
      ∃ t, lookupKey kvs "type" = some (Json.str t) ∧ t ∈ allowList ∧
        (lookupKey kvs "timestamp" = none ∨ lookupKey kvs "data" = none))

/-- The loop body raises on any bad event. -/
theorem processEvent_badEvent (e : Json) (h : badEvent e) :
    ∃ m, processEvent e = Except.error m := by
  obtain ⟨kvs, rfl, hcase⟩ := h
  rcases hcase with hty | ⟨t, hty, hmem, hmiss⟩
  · exact ⟨squote ++ "type" ++ squote, by simp [processEvent, subscript, hty]⟩
  · cases hts : lookupKey kvs "timestamp" with
    | none =>
      refine ⟨squote ++ "timestamp" ++ squote, ?_⟩
      simp [processEvent, subscript, hty, hts, jsonInStrList, hmem]
    | some v =>
      have hd : lookupKey kvs "data" = none := by
        rcases hmiss with h' | h'
        · simp [h'] at hts
        · exact h'
      refine ⟨squote ++ "data" ++ squote, ?_⟩
      simp [processEvent, subscript, hty, hts, hd, jsonInStrList, hmem]

/-- A loop over a list containing a bad event always aborts. -/
theorem runLoop_badEvent (xs : List Json) (e : Json) (he : e ∈ xs)
    (hb : badEvent e) : ∃ m, (runLoop xs).2 = some m := by
  induction xs with
  | nil => cases he
  | cons x rest ih =>
    rcases List.mem_cons.mp he with rfl | hmem
    · obtain ⟨m, hm⟩ := processEvent_badEvent e hb
      exact ⟨m, by simp [runLoop, hm]⟩
    · cases hx : processEvent x with
      | error m => exact ⟨m, by simp [runLoop, hx]⟩
      | ok o =>
        obtain ⟨m, hm⟩ := ih hmem
        cases o with
        | none => exact ⟨m, by simp [runLoop, hx]; exact hm⟩
        | some line =>
          rcases hr : runLoop rest with ⟨lines, err⟩
          rw [hr] at hm
          exact ⟨m, by simp [runLoop, hx, hr]; exact hm⟩

/-- C8: if the trailing slice of the events list contains an event
object without a `type` key, or an allow-listed event without a
`timestamp` or `data` key, the run aborts with an unhandled failure. -/
theorem c8_malformed_event_aborts (w : World) (js : Json) (xs : List Json)
    (e : Json)
    (hev : w.eventsResp = Except.ok js)
    (hsub : subscript js "events" = Except.ok (Json.arr xs))
    (he : e ∈ lastSlice xs)
    (hb : badEvent e) :
    ∃ m, (runScript w).exit = ExitStatus.aborted m := by
  obtain ⟨m, hm⟩ := runLoop_badEvent (lastSlice xs) e he hb
  rcases hE : eventLines xs with ⟨lines, err⟩
  have herr : err = some m := by
    have h2 : (eventLines xs).2 = some m := hm
    rw [hE] at h2
    exact h2
  subst herr
  exact ⟨m, by simp [runScript, hev, hsub, hE]⟩

/-- Witness for C8: a single event carrying only a `timestamp` key
makes the run abort. -/
theorem c8_malformed_event_aborts_witness :
    ∃ m, (runScript ⟨Except.ok (Json.obj [("events", Json.arr
      [Json.obj [("timestamp", Json.num 1)]])]), Except.ok Json.null⟩).exit =
      ExitStatus.aborted m :=
  c8_malformed_event_aborts _ _ [Json.obj [("timestamp", Json.num 1)]]
    (Json.obj [("timestamp", Json.num 1)]) rfl rfl
    (by simp [lastSlice]) ⟨[("timestamp", Json.num 1)], rfl, Or.inl rfl⟩

/-- Two key-value entries that agree except possibly in the value at
the `timestamp` key. -/
def tsKvEquiv (a b : String × Json) : Prop :=
  a.1 = b.1 ∧ (a.1 = "timestamp" ∨ a.2 = b.2)

/-- Two events that are identical except for the value of their
`timestamp` field, which both carry. -/
def tsEventEquiv (e1 e2 : Json) : Prop :=
  ∃ k1 k2, e1 = Json.obj k1 ∧ e2 = Json.obj k2 ∧
    List.Forall₂ tsKvEquiv k1 k2 ∧ (lookupKey k1 "timestamp").isSome

/-- Lookups at any key other than `timestamp` agree across the
equivalence. -/
theorem lookupKey_tsKvEquiv (k1 k2 : List (String × Json)) (key : String)
    (hkey : key ≠ "timestamp") (h : List.Forall₂ tsKvEquiv k1 k2) :
    lookupKey k1 key = lookupKey k2 key := by
  induction h with
  | nil => rfl
  | @cons a b l1 l2 h1 h2 ih =>
    obtain ⟨ka, va⟩ := a
    obtain ⟨kb, vb⟩ := b
    obtain ⟨hk, hor⟩ := h1
    have hk' : ka = kb := hk
    subst hk'
    by_cases hkk : ka = key
    · subst hkk
      have hv : va = vb := by
        rcases hor with h' | h'
        · exact absurd h' hkey
        · exact h'
      simp [lookupKey, hv]
    · simp [lookupKey, hkk, ih]

/-- Presence of the `timestamp` key agrees across the equivalence. -/
theorem lookupKey_ts_isSome (k1 k2 : List (String × Json))
    (h : List.Forall₂ tsKvEquiv k1 k2) :
    (lookupKey k1 "timestamp").isSome = (lookupKey k2 "timestamp").isSome := by
  induction h with
  | nil => rfl
  | @cons a b l1 l2 h1 h2 ih =>
    obtain ⟨ka, va⟩ := a
    obtain ⟨kb, vb⟩ := b
    obtain ⟨hk, hor⟩ := h1
    have hk' : ka = kb := hk
    subst hk'
    by_cases hts : ka = "timestamp" <;> simp [lookupKey, hts, ih]

/-- The loop body gives identical results on equivalent events: the
timestamp value is read but discarded. -/
theorem processEvent_tsEquiv (e1 e2 : Json) (h : tsEventEquiv e1 e2) :
    processEvent e1 = processEvent e2 := by
  obtain ⟨k1, k2, rfl, rfl, hf, hts⟩ := h
  have hty := lookupKey_tsKvEquiv k1 k2 "type" (by decide) hf
  have hdata := lookupKey_tsKvEquiv k1 k2 "data" (by decide) hf
  have htss := lookupKey_ts_isSome k1 k2 hf
  cases hl : lookupKey k2 "type" with
  | none => simp [processEvent, subscript, hty, hl]
  | some ty =>
    by_cases hin : jsonInStrList ty allowList
    · cases ht1 : lookupKey k1 "timestamp" with
      | none => rw [ht1] at hts; simp at hts
      | some v1 =>
        have hsome2 : (lookupKey k2 "timestamp").isSome := by
          rw [← htss, ht1]
          rfl
        obtain ⟨v2, ht2⟩ := Option.isSome_iff_exists.mp hsome2
        simp [processEvent, subscript, hty, hl, hin, ht1, ht2, hdata]
    · simp [processEvent, subscript, hty, hl, hin]

/-- The loop gives identical results on pointwise equivalent lists. -/
theorem runLoop_tsEquiv (xs ys : List Json)
    (h : List.Forall₂ tsEventEquiv xs ys) : runLoop xs = runLoop ys := by
  induction h with
  | nil => rfl
  | @cons a b l1 l2 h1 h2 ih =>
    have hpe := processEvent_tsEquiv a b h1
    cases hb : processEvent b with
    | error m => simp [runLoop, hpe, hb]
    | ok o =>
      cases o with
      | none => simp [runLoop, hpe, hb, ih]
      | some line => simp [runLoop, hpe, hb, ih]

/-- C9: the printed output never depends on timestamp values: two runs
whose events lists are identical except for the values of their
`timestamp` fields (both present) and whose state responses coincide
have identical results, output included. -/
theorem c9_timestamp_noninterference (xs ys : List Json)
    (stResp : Except String Json)
    (h : List.Forall₂ tsEventEquiv xs ys) :
    runScript ⟨Except.ok (Json.obj [("events", Json.arr xs)]), stResp⟩ =
      runScript ⟨Except.ok (Json.obj [("events", Json.arr ys)]), stResp⟩ := by
  have hlen : xs.length = ys.length := h.length_eq
  have hslice : List.Forall₂ tsEventEquiv (lastSlice xs) (lastSlice ys) := by
    unfold lastSlice
    rw [hlen]
    exact List.forall₂_drop _ h
  have hEL : eventLines xs = eventLines ys := by
    unfold eventLines
    exact runLoop_tsEquiv _ _ hslice
  simp [runScript, subscript, lookupKey, hEL]

/-- Witness for C9: the same `chat` event with timestamps 1 and 999
gives identical runs. -/
theorem c9_timestamp_noninterference_witness :
    runScript ⟨Except.ok (Json.obj [("events", Json.arr
      [Json.obj [("type", Json.str "chat"), ("timestamp", Json.num 1),
        ("data", Json.obj [])]])]), Except.ok Json.null⟩ =
    runScript ⟨Except.ok (Json.obj [("events", Json.arr
      [Json.obj [("type", Json.str "chat"), ("timestamp", Json.num 999),
        ("data", Json.obj [])]])]), Except.ok Json.null⟩ :=
  c9_timestamp_noninterference _ _ _
    (List.Forall₂.cons
      ⟨_, _, rfl, rfl,
        List.Forall₂.cons ⟨rfl, Or.inr rfl⟩
          (List.Forall₂.cons ⟨rfl, Or.inl rfl⟩
            (List.Forall₂.cons ⟨rfl, Or.inr rfl⟩ List.Forall₂.nil)),
        by decide⟩
      List.Forall₂.nil)
